import Mathlib

/-!
Shallow embedding of the Vetra stablecoin contract (`contracts/Vetra.sol`,
Solidity ^0.8.24) — the reserve-gated minting invariant engine.

Modelling conventions:
* `uint256` values are `Nat`; Solidity 0.8 checked arithmetic is made
  explicit: an operation whose mathematical result would leave
  `[0, 2^256)` takes the `.panicArithmetic` error branch (Solidity
  `Panic(0x11)`), exactly where the source performs the operation.
* Addresses and `bytes32` request ids are `Nat` (`0` is the zero address).
* Solidity `mapping`s are total functions, as in the EVM storage model.
* Each external function is `VetraState → args → Except VetraError VetraState`:
  `.ok s'` is a completed call leaving storage `s'`; `.error e` is a revert,
  and EVM revert semantics roll the whole transaction back, so the post-state
  of a reverted call is the pre-state (captured by `runTx`).
* OpenZeppelin modifiers (`onlyRole`, `whenNotPaused`) run before the function
  body, left to right, and are embedded as the leading checks.
-/

/-- Metadata stored per Chainlink Functions request (struct `RequestMetadata`). -/
structure RequestMetadata where
  requester : Nat
  timestamp : Nat
  fulfilled : Bool
  deriving Repr, DecidableEq

/-- Storage of the Vetra contract: reserve attestation fields, Chainlink
wiring, optional policies, pause flag, roles, and the ERC20 supply/balances. -/
structure VetraState where
  totalSupply : Nat
  balances : Nat → Nat
  paused : Bool
  minters : Nat → Bool
  burners : Nat → Bool
  lastReserveUsd : Nat
  lastReserveTimestamp : Nat
  lastReserveNonce : Nat
  reserveTTL : Nat
  functionsRouter : Nat
  requests : Nat → RequestMetadata
  mintPerTxLimit : Nat
  allowlistEnabled : Bool
  allowlist : Nat → Bool

/-- Errors a Vetra call can revert with: the contract's custom errors,
the OpenZeppelin modifier errors, the ERC20 balance error, the Solidity
arithmetic panic, and the ABI-decode revert of `abi.decode`. -/
inductive VetraError where
  | reserveStale (age maxAge : Nat)
  | reserveInsufficient (required available : Nat)
  | nonceNotMonotonic (currentNonce newNonce : Nat)
  | mintLimitExceeded (amount limit : Nat)
  | recipientNotAllowed (recipient : Nat)
  | invalidAddress
  | invalidAmount
  | invalidConfiguration
  | accessControlUnauthorized (account : Nat)
  | enforcedPause
  | erc20InsufficientBalance (sender balance needed : Nat)
  | panicArithmetic
  | abiDecodeError
  deriving Repr, DecidableEq

/-- `2^256`, the modulus of `uint256`; checked arithmetic reverts at it. -/
def U256 : Nat := 2 ^ 256

/-- `RESERVE_SCALE_FACTOR = 1e8` (reserve USD has 8 decimals). -/
def RESERVE_SCALE_FACTOR : Nat := 10 ^ 8

/-- `TOKEN_DECIMALS = 1e18` (token has 18 decimals). -/
def TOKEN_DECIMALS : Nat := 10 ^ 18

/-- `RESERVE_TO_TOKEN_SCALE = TOKEN_DECIMALS / RESERVE_SCALE_FACTOR` (`= 1e10`). -/
def RESERVE_TO_TOKEN_SCALE : Nat := TOKEN_DECIMALS / RESERVE_SCALE_FACTOR

/-- The reserve value scaled to token precision, `lastReserveUsd *
RESERVE_TO_TOKEN_SCALE` — the expression computed at `Vetra.sol:250` and
`Vetra.sol:552` (as a mathematical `Nat`, before the overflow check). -/
def scaledCapacity (s : VetraState) : Nat :=
  s.lastReserveUsd * RESERVE_TO_TOKEN_SCALE

/-- EVM transaction semantics: the post-state of a call is the returned
storage on success, and the unchanged pre-state on revert. -/
def runTx (r : Except VetraError VetraState) (s : VetraState) : VetraState :=
  match r with
  | .ok s' => s'
  | .error _ => s

/-- `mint(address to, uint256 amount)` (`Vetra.sol:235`), with
`msg.sender = sender` and `block.timestamp = now`.  Modifier order:
`onlyRole(MINTER_ROLE)` then `whenNotPaused`; body: zero-address check,
zero-amount check, freshness (`block.timestamp - lastReserveTimestamp`,
checked subtraction), capacity (`lastReserveUsd * RESERVE_TO_TOKEN_SCALE`
and `totalSupply() + amount`, both checked), per-tx limit, allowlist,
then `_mint`. -/
def mint (s : VetraState) (sender toAddr amount now : Nat) :
    Except VetraError VetraState :=
  if s.minters sender = false then .error (.accessControlUnauthorized sender)
  else if s.paused = true then .error .enforcedPause
  else if toAddr = 0 then .error .invalidAddress
  else if amount = 0 then .error .invalidAmount
  else if now < s.lastReserveTimestamp then .error .panicArithmetic
  else if s.reserveTTL < now - s.lastReserveTimestamp then
    .error (.reserveStale (now - s.lastReserveTimestamp) s.reserveTTL)
  else if U256 ≤ s.lastReserveUsd * RESERVE_TO_TOKEN_SCALE then
    .error .panicArithmetic
  else if U256 ≤ s.totalSupply + amount then .error .panicArithmetic
  else if s.lastReserveUsd * RESERVE_TO_TOKEN_SCALE < s.totalSupply + amount then
    .error (.reserveInsufficient (s.totalSupply + amount)
              (s.lastReserveUsd * RESERVE_TO_TOKEN_SCALE))
  else if 0 < s.mintPerTxLimit ∧ s.mintPerTxLimit < amount then
    .error (.mintLimitExceeded amount s.mintPerTxLimit)
  else if s.allowlistEnabled = true ∧ s.allowlist toAddr = false then
    .error (.recipientNotAllowed toAddr)
  else
    .ok { s with
          totalSupply := s.totalSupply + amount,
          balances := fun a =>
            if a = toAddr then s.balances a + amount else s.balances a }

/-- `burnFrom(address account, uint256 amount)` (`Vetra.sol:289`):
`onlyRole(BURNER_ROLE)`, `whenNotPaused`, zero checks, then `_burn`
(which reverts with `ERC20InsufficientBalance` when the balance is short). -/
def burnFrom (s : VetraState) (sender account amount : Nat) :
    Except VetraError VetraState :=
  if s.burners sender = false then .error (.accessControlUnauthorized sender)
  else if s.paused = true then .error .enforcedPause
  else if account = 0 then .error .invalidAddress
  else if amount = 0 then .error .invalidAmount
  else if s.balances account < amount then
    .error (.erc20InsufficientBalance account (s.balances account) amount)
  else
    .ok { s with
          totalSupply := s.totalSupply - amount,
          balances := fun a =>
            if a = account then s.balances a - amount else s.balances a }

/-- `burn(uint256 amount)` (`Vetra.sol:311`): `whenNotPaused`, zero-amount
check, then `_burn(msg.sender, amount)`. -/
def burn (s : VetraState) (sender amount : Nat) :
    Except VetraError VetraState :=
  if s.paused = true then .error .enforcedPause
  else if amount = 0 then .error .invalidAmount
  else if s.balances sender < amount then
    .error (.erc20InsufficientBalance sender (s.balances sender) amount)
  else
    .ok { s with
          totalSupply := s.totalSupply - amount,
          balances := fun a =>
            if a = sender then s.balances a - amount else s.balances a }

/-- Big-endian interpretation of a byte list as a natural number. -/
def beBytesToNat (bs : List Nat) : Nat :=
  bs.foldl (fun acc b => acc * 256 + b) 0

/-- `abi.decode(response, (uint256, uint256))`: succeeds iff the payload
holds at least two 32-byte words (head-decoding of two static words; a
shorter payload reverts). -/
def decodeUint256Pair (response : List Nat) : Option (Nat × Nat) :=
  if response.length < 64 then none
  else some (beBytesToNat (response.take 32),
             beBytesToNat ((response.drop 32).take 32))

/-- The storage write `requests[requestId].fulfilled = true` performed at
`Vetra.sol:394-395` before any validation of the oracle payload. -/
def markFulfilled (s : VetraState) (requestId : Nat) : VetraState :=
  { s with
    requests := fun id =>
      if id = requestId then { s.requests id with fulfilled := true }
      else s.requests id }

/-- `handleOracleFulfillment(bytes32 requestId, bytes response, bytes err)`
(`Vetra.sol:384`): router-only; marks the request fulfilled; returns silently
(without touching the reserve) when `err` is non-empty; otherwise decodes
`(usdAmount, nonce)`, enforces the strictly-monotonic nonce, and stores the
attestation with `observedAt = block.timestamp`. -/
def handleOracleFulfillment (s : VetraState) (sender requestId : Nat)
    (response errPayload : List Nat) (now : Nat) :
    Except VetraError VetraState :=
  if sender ≠ s.functionsRouter then .error .invalidAddress
  else if errPayload.length > 0 then .ok (markFulfilled s requestId)
  else
    match decodeUint256Pair response with
    | none => .error .abiDecodeError
    | some (usdAmount, nonce) =>
      if nonce ≤ s.lastReserveNonce then
        .error (.nonceNotMonotonic s.lastReserveNonce nonce)
      else
        .ok { markFulfilled s requestId with
              lastReserveUsd := usdAmount,
              lastReserveTimestamp := now,
              lastReserveNonce := nonce }

/-- `reserveAge()` (`Vetra.sol:528`): `type(uint256).max` when no attestation
was ever recorded, else the checked subtraction `block.timestamp -
lastReserveTimestamp`. -/
def reserveAge (s : VetraState) (now : Nat) : Except VetraError Nat :=
  if s.lastReserveTimestamp = 0 then .ok (U256 - 1)
  else if now < s.lastReserveTimestamp then .error .panicArithmetic
  else .ok (now - s.lastReserveTimestamp)

/-- `isReserveFresh()` (`Vetra.sol:543`): `false` when no attestation was
ever recorded, else whether the checked age is at most `reserveTTL`. -/
def isReserveFresh (s : VetraState) (now : Nat) : Except VetraError Bool :=
  if s.lastReserveTimestamp = 0 then .ok false
  else if now < s.lastReserveTimestamp then .error .panicArithmetic
  else .ok (decide (now - s.lastReserveTimestamp ≤ s.reserveTTL))

/-- `availableMintCapacity()` (`Vetra.sol:551`): the scaled reserve (checked
multiplication) minus the supply, floored at `0` by an explicit guard. -/
def availableMintCapacity (s : VetraState) : Except VetraError Nat :=
  if U256 ≤ s.lastReserveUsd * RESERVE_TO_TOKEN_SCALE then
    .error .panicArithmetic
  else if s.lastReserveUsd * RESERVE_TO_TOKEN_SCALE ≤ s.totalSupply then .ok 0
  else .ok (s.lastReserveUsd * RESERVE_TO_TOKEN_SCALE - s.totalSupply)

/-- The inline per-transaction limit check of `Vetra.sol:258`
(`mintPerTxLimit > 0 && amount > mintPerTxLimit`), as the spec's
`checkOperationLimit`. -/
def checkOperationLimit (limit amount : Nat) : Except VetraError Unit :=
  if 0 < limit ∧ limit < amount then
    .error (.mintLimitExceeded amount limit)
  else .ok ()

/-- The inline allowlist check of `Vetra.sol:263`
(`allowlistEnabled && !allowlist[to]`), as the spec's `checkAllowlist`. -/
def checkAllowlist (enabled : Bool) (allowed : Nat → Bool) (toAddr : Nat) :
    Except VetraError Unit :=
  if enabled = true ∧ allowed toAddr = false then
    .error (.recipientNotAllowed toAddr)
  else .ok ()

/-- The storage `initialize` leaves behind (`Vetra.sol:174`), for the given
admin-chosen TTL, router, and role holders: zeroed reserve fields and
disabled policies. -/
def initState (ttl router : Nat) (minters burners : Nat → Bool) : VetraState :=
  { totalSupply := 0
    balances := fun _ => 0
    paused := false
    minters := minters
    burners := burners
    lastReserveUsd := 0
    lastReserveTimestamp := 0
    lastReserveNonce := 0
    reserveTTL := ttl
    functionsRouter := router
    requests := fun _ => { requester := 0, timestamp := 0, fulfilled := false }
    mintPerTxLimit := 0
    allowlistEnabled := false
    allowlist := fun _ => false }

/-! ### Shared helper lemmas and concrete states -/

/-- A deployed instance: TTL `900`, router address `7`, minter `2`,
burner `3`, directly after `initialize`. -/
def baseState : VetraState :=
  initState 900 7 (fun a => a == 2) (fun a => a == 3)

/-- A successful `mint` implies every gate passed and describes the
post-state: the checks of `Vetra.sol:235-265` in order, the projected
supply within the scaled capacity, and the ERC20 effect of `_mint`. -/
theorem mint_ok_spec (s : VetraState) (sender toAddr amount now : Nat)
    (s' : VetraState) (h : mint s sender toAddr amount now = .ok s') :
    s.minters sender = true ∧ s.paused = false ∧ toAddr ≠ 0 ∧ amount ≠ 0 ∧
    s.lastReserveTimestamp ≤ now ∧
    now - s.lastReserveTimestamp ≤ s.reserveTTL ∧
    scaledCapacity s < U256 ∧ s.totalSupply + amount < U256 ∧
    s.totalSupply + amount ≤ scaledCapacity s ∧
    s'.totalSupply = s.totalSupply + amount ∧
    s'.lastReserveUsd = s.lastReserveUsd ∧
    s'.lastReserveTimestamp = s.lastReserveTimestamp ∧
    s'.lastReserveNonce = s.lastReserveNonce := by
  unfold mint at h
  by_cases h1 : s.minters sender = false
  · rw [if_pos h1] at h; exact Except.noConfusion h
  rw [if_neg h1] at h
  by_cases h2 : s.paused = true
  · rw [if_pos h2] at h; exact Except.noConfusion h
  rw [if_neg h2] at h
  by_cases h3 : toAddr = 0
  · rw [if_pos h3] at h; exact Except.noConfusion h
  rw [if_neg h3] at h
  by_cases h4 : amount = 0
  · rw [if_pos h4] at h; exact Except.noConfusion h
  rw [if_neg h4] at h
  by_cases h5 : now < s.lastReserveTimestamp
  · rw [if_pos h5] at h; exact Except.noConfusion h
  rw [if_neg h5] at h
  by_cases h6 : s.reserveTTL < now - s.lastReserveTimestamp
  · rw [if_pos h6] at h; exact Except.noConfusion h
  rw [if_neg h6] at h
  by_cases h7 : U256 ≤ s.lastReserveUsd * RESERVE_TO_TOKEN_SCALE
  · rw [if_pos h7] at h; exact Except.noConfusion h
  rw [if_neg h7] at h
  by_cases h8 : U256 ≤ s.totalSupply + amount
  · rw [if_pos h8] at h; exact Except.noConfusion h
  rw [if_neg h8] at h
  by_cases h9 : s.lastReserveUsd * RESERVE_TO_TOKEN_SCALE <
      s.totalSupply + amount
  · rw [if_pos h9] at h; exact Except.noConfusion h
  rw [if_neg h9] at h
  by_cases h10 : 0 < s.mintPerTxLimit ∧ s.mintPerTxLimit < amount
  · rw [if_pos h10] at h; exact Except.noConfusion h
  rw [if_neg h10] at h
  by_cases h11 : s.allowlistEnabled = true ∧ s.allowlist toAddr = false
  · rw [if_pos h11] at h; exact Except.noConfusion h
  rw [if_neg h11] at h
  injection h with h
  subst h
  exact ⟨Bool.eq_true_of_not_eq_false h1, Bool.eq_false_of_not_eq_true h2,
         h3, h4, Nat.le_of_not_lt h5, Nat.le_of_not_lt h6,
         Nat.lt_of_not_le h7, Nat.lt_of_not_le h8, Nat.le_of_not_lt h9,
         rfl, rfl, rfl, rfl⟩

/-- C1 (amended): a mint is authorized only when the projected supply
`totalSupply + amount` stays within the scaled capacity
`lastReserveUsd * RESERVE_TO_TOKEN_SCALE`, so the total supply immediately
after every accepted mint is at most the scaled capacity; when all earlier
gates pass and both `uint256` computations fit, a projection exceeding the
capacity reverts with exactly `ReserveInsufficient(projected, capacity)` —
but when `totalSupply + amount` itself overflows `uint256`, the call
instead reverts with the arithmetic panic of the checked addition at
`Vetra.sol:251`, even though the projection exceeds the capacity. -/
theorem mint_capacity_invariant :
    (∀ s sender toAddr amount now s',
       mint s sender toAddr amount now = .ok s' →
       s.totalSupply + amount ≤ scaledCapacity s ∧
       s'.totalSupply ≤ scaledCapacity s') ∧
    (∀ s sender toAddr amount now,
       s.minters sender = true → s.paused = false → toAddr ≠ 0 → amount ≠ 0 →
       s.lastReserveTimestamp ≤ now →
       now - s.lastReserveTimestamp ≤ s.reserveTTL →
       scaledCapacity s < U256 → s.totalSupply + amount < U256 →
       scaledCapacity s < s.totalSupply + amount →
       mint s sender toAddr amount now =
         .error (.reserveInsufficient (s.totalSupply + amount)
                   (scaledCapacity s))) ∧
    (∀ s sender toAddr amount now,
       s.minters sender = true → s.paused = false → toAddr ≠ 0 → amount ≠ 0 →
       s.lastReserveTimestamp ≤ now →
       now - s.lastReserveTimestamp ≤ s.reserveTTL →
       scaledCapacity s < U256 → U256 ≤ s.totalSupply + amount →
       mint s sender toAddr amount now = .error .panicArithmetic) := by
  refine ⟨?_, ?_, ?_⟩
  · intro s sender toAddr amount now s' h
    obtain ⟨-, -, -, -, -, -, -, -, hcap, hsup, husd, -, -⟩ :=
      mint_ok_spec s sender toAddr amount now s' h
    refine ⟨hcap, ?_⟩
    rw [hsup]
    show s.totalSupply + amount ≤ s'.lastReserveUsd * RESERVE_TO_TOKEN_SCALE
    rw [husd]
    exact hcap
  · intro s sender toAddr amount now hminter hpaused hto hamt hnow hfresh
      hmul hadd hover
    simp only [scaledCapacity] at hmul hover
    unfold mint
    rw [if_neg (by simp [hminter]), if_neg (by simp [hpaused]), if_neg hto,
        if_neg hamt, if_neg (Nat.not_lt.mpr hnow),
        if_neg (Nat.not_lt.mpr (Nat.sub_le_iff_le_add.mpr
          (by omega : now ≤ s.reserveTTL + s.lastReserveTimestamp))),
        if_neg (Nat.not_le.mpr hmul), if_neg (Nat.not_le.mpr hadd),
        if_pos hover]
    rfl
  · intro s sender toAddr amount now hminter hpaused hto hamt hnow hfresh
      hmul hadd
    simp only [scaledCapacity] at hmul
    unfold mint
    rw [if_neg (by simp [hminter]), if_neg (by simp [hpaused]), if_neg hto,
        if_neg hamt, if_neg (Nat.not_lt.mpr hnow),
        if_neg (Nat.not_lt.mpr hfresh), if_neg (Nat.not_le.mpr hmul),
        if_pos hadd]

/-- Concrete instantiation of `mint_capacity_invariant`: with a fresh
$100.00000000 attestation (capacity `100e18`), minting `1e18` to address 5
is accepted and keeps the supply within capacity, while minting `101e18`
reverts with `ReserveInsufficient(101e18, 100e18)`. -/
def c1State : VetraState :=
  { baseState with
    lastReserveUsd := 100 * 10 ^ 8
    lastReserveTimestamp := 100
    lastReserveNonce := 1 }

/-- The storage after the accepted mint in the `mint_capacity_invariant`
witness. -/
def c1StateAfter : VetraState :=
  runTx (mint c1State 2 5 (10 ^ 18) 200) c1State

/-- A fresh-reserve state that already issued one unit, used to drive the
checked addition `totalSupply() + amount` past `2^256`. -/
def c1OverflowState : VetraState :=
  { baseState with
    totalSupply := 1
    lastReserveUsd := 100 * 10 ^ 8
    lastReserveTimestamp := 100
    lastReserveNonce := 1 }

/-- Witness for `mint_capacity_invariant` at concrete inputs: an accepted
mint within capacity, an over-capacity mint reverting with
`ReserveInsufficient`, and an overflowing projection reverting with the
arithmetic panic. -/
theorem mint_capacity_invariant_witness :
    (c1State.totalSupply + 10 ^ 18 ≤ scaledCapacity c1State ∧
     c1StateAfter.totalSupply ≤ scaledCapacity c1StateAfter) ∧
    mint c1State 2 5 (101 * 10 ^ 18) 200 =
      .error (.reserveInsufficient (101 * 10 ^ 18) (100 * 10 ^ 18)) ∧
    mint c1OverflowState 2 5 (U256 - 1) 200 = .error .panicArithmetic :=
  ⟨mint_capacity_invariant.1 c1State 2 5 (10 ^ 18) 200 c1StateAfter rfl,
   mint_capacity_invariant.2.1 c1State 2 5 (101 * 10 ^ 18) 200 rfl rfl
     (by decide) (by decide) (by decide) (by decide) (by decide) (by decide)
     (by decide),
   mint_capacity_invariant.2.2 c1OverflowState 2 5 (U256 - 1) 200 rfl rfl
     (by decide) (by decide) (by decide) (by decide) (by decide)
     (by decide)⟩

/-- C1 counterexample: with a fresh `$100` reserve, one unit already
issued, and `amount = 2^256 - 1`, the projected supply `2^256` exceeds the
scaled capacity `100e18`, yet the mint reverts with the arithmetic panic
of the checked addition `totalSupply() + amount` (`Vetra.sol:251`) rather
than with `ReserveInsufficient{required, available}` as the claim states
for every over-capacity request. -/
theorem mint_capacity_panic_counterexample :
    scaledCapacity c1OverflowState <
      c1OverflowState.totalSupply + (U256 - 1) ∧
    mint c1OverflowState 2 5 (U256 - 1) 200 = .error .panicArithmetic ∧
    (Except.error VetraError.panicArithmetic :
      Except VetraError VetraState) ≠
      .error (.reserveInsufficient
                (c1OverflowState.totalSupply + (U256 - 1))
                (scaledCapacity c1OverflowState)) :=
  ⟨by decide, rfl, by simp⟩

/-- C2 (amended): with the router as caller, an empty transport error, and a
decodable `(usd, nonce)` payload, `handleOracleFulfillment` rejects any
`nonce ≤ lastReserveNonce` with `NonceNotMonotonic` and the revert leaves
the whole storage — in particular the stored attestation — unchanged; any
`nonce > lastReserveNonce` replaces the attestation with
`{usd, nonce, observedAt := now}`.  Because the contract encodes "no
attestation yet" as `lastReserveNonce = 0`, this gate applies even before
the first attestation. -/
theorem attestation_nonce_gate :
    ∀ s sender requestId response errPayload now usd nonce,
      sender = s.functionsRouter → errPayload = [] →
      decodeUint256Pair response = some (usd, nonce) →
      ((nonce ≤ s.lastReserveNonce →
        handleOracleFulfillment s sender requestId response errPayload now =
          .error (.nonceNotMonotonic s.lastReserveNonce nonce) ∧
        runTx (handleOracleFulfillment s sender requestId response errPayload
          now) s = s) ∧
       (s.lastReserveNonce < nonce →
        handleOracleFulfillment s sender requestId response errPayload now =
          .ok { markFulfilled s requestId with
                lastReserveUsd := usd,
                lastReserveTimestamp := now,
                lastReserveNonce := nonce })) := by
  intro s sender requestId response errPayload now usd nonce hsender herr hdec
  subst hsender
  subst herr
  unfold handleOracleFulfillment
  rw [if_neg (by simp), if_neg (by simp)]
  simp only [hdec]
  constructor
  · intro hle
    rw [if_pos hle]
    exact ⟨rfl, rfl⟩
  · intro hgt
    rw [if_neg (Nat.not_le.mpr hgt)]

/-- A state holding the attestation `(usd = 100e8, nonce = 5, observedAt =
10)`, used to instantiate `attestation_nonce_gate`. -/
def c2State : VetraState :=
  { baseState with
    lastReserveUsd := 100 * 10 ^ 8
    lastReserveTimestamp := 10
    lastReserveNonce := 5 }

/-- ABI payload encoding `(usd = 2, nonce = 5)`. -/
def c2RespNonce5 : List Nat :=
  List.replicate 31 0 ++ 2 :: List.replicate 31 0 ++ [5]

/-- ABI payload encoding `(usd = 2, nonce = 6)`. -/
def c2RespNonce6 : List Nat :=
  List.replicate 31 0 ++ 2 :: List.replicate 31 0 ++ [6]

/-- Witness for `attestation_nonce_gate`: against stored nonce `5`, a
replayed nonce `5` is rejected and changes nothing, while nonce `6` replaces
the attestation. -/
theorem attestation_nonce_gate_witness :
    (handleOracleFulfillment c2State 7 1 c2RespNonce5 [] 60 =
       .error (.nonceNotMonotonic 5 5) ∧
     runTx (handleOracleFulfillment c2State 7 1 c2RespNonce5 [] 60) c2State =
       c2State) ∧
    handleOracleFulfillment c2State 7 1 c2RespNonce6 [] 60 =
      .ok { markFulfilled c2State 1 with
            lastReserveUsd := 2,
            lastReserveTimestamp := 60,
            lastReserveNonce := 6 } :=
  ⟨(attestation_nonce_gate c2State 7 1 c2RespNonce5 [] 60 2 5 rfl rfl
      (by decide)).1 (by decide),
   (attestation_nonce_gate c2State 7 1 c2RespNonce6 [] 60 2 6 rfl rfl
      (by decide)).2 (by decide)⟩

/-- C2 counterexample: in the freshly initialized state no attestation
exists (`lastReserveTimestamp = 0`), yet a decodable record with nonce `0`
is NOT accepted as a replacement — it reverts with
`NonceNotMonotonic(0, 0)`, because the contract compares against the
sentinel `lastReserveNonce = 0` whether or not an attestation exists. -/
theorem attestation_nonce_zero_initial :
    baseState.lastReserveTimestamp = 0 ∧
    decodeUint256Pair (List.replicate 31 0 ++ 1 :: List.replicate 32 0) =
      some (1, 0) ∧
    handleOracleFulfillment baseState 7 1
      (List.replicate 31 0 ++ 1 :: List.replicate 32 0) [] 50 =
      .error (.nonceNotMonotonic 0 0) :=
  ⟨rfl, by decide, rfl⟩

/-- C3 (amended): before any attestation (`lastReserveTimestamp = 0`,
`lastReserveUsd = 0`), the view `isReserveFresh` is `false` for every
`now`, `availableMintCapacity` is `0`, and every mint attempt fails — but
not always with `ReserveStale`: `mint` recomputes the age inline without
the zero-timestamp guard used by `isReserveFresh`, so the attempt reverts
with `ReserveStale(now, ttl)` only when `now > reserveTTL`, and with
`ReserveInsufficient(totalSupply + amount, 0)` when `now ≤ reserveTTL`. -/
theorem no_attestation_blocks_mint :
    ∀ s, s.lastReserveTimestamp = 0 → s.lastReserveUsd = 0 →
      ((∀ now, isReserveFresh s now = .ok false) ∧
       availableMintCapacity s = .ok 0 ∧
       (∀ sender toAddr amount now,
          (mint s sender toAddr amount now).isOk = false) ∧
       (∀ sender toAddr amount now,
          s.minters sender = true → s.paused = false → toAddr ≠ 0 →
          amount ≠ 0 → s.totalSupply + amount < U256 →
          ((s.reserveTTL < now →
             mint s sender toAddr amount now =
               .error (.reserveStale now s.reserveTTL)) ∧
           (now ≤ s.reserveTTL →
             mint s sender toAddr amount now =
               .error (.reserveInsufficient (s.totalSupply + amount) 0))))) := by
  intro s hts husd
  refine ⟨?_, ?_, ?_, ?_⟩
  · intro now
    unfold isReserveFresh
    rw [if_pos hts]
  · unfold availableMintCapacity
    rw [husd, Nat.zero_mul, if_neg (by decide), if_pos (Nat.zero_le _)]
  · intro sender toAddr amount now
    cases hm : mint s sender toAddr amount now with
    | error e => rfl
    | ok s' =>
      exfalso
      obtain ⟨-, -, -, hamt, -, -, -, -, hcap, -⟩ :=
        mint_ok_spec s sender toAddr amount now s' hm
      rw [scaledCapacity, husd, Nat.zero_mul, Nat.le_zero,
          Nat.add_eq_zero] at hcap
      exact hamt hcap.2
  · intro sender toAddr amount now hminter hpaused hto hamt hadd
    unfold mint
    rw [hts, husd, Nat.zero_mul, Nat.sub_zero,
        if_neg (by simp [hminter]), if_neg (by simp [hpaused]), if_neg hto,
        if_neg hamt, if_neg (Nat.not_lt_zero now)]
    constructor
    · intro hlate
      rw [if_pos hlate]
    · intro hearly
      rw [if_neg (Nat.not_lt.mpr hearly), if_neg (by decide : ¬ (U256 ≤ 0)),
          if_neg (Nat.not_le.mpr hadd),
          if_pos (by omega : 0 < s.totalSupply + amount)]

/-- Witness for `no_attestation_blocks_mint` on the freshly initialized
state: never fresh, zero capacity, every mint attempt fails; at `now = 901`
(past the TTL) the error is `ReserveStale(901, 900)`, at `now = 100` it is
`ReserveInsufficient(1e18, 0)`. -/
theorem no_attestation_blocks_mint_witness :
    isReserveFresh baseState 100 = .ok false ∧
    availableMintCapacity baseState = .ok 0 ∧
    (mint baseState 2 5 (10 ^ 18) 100).isOk = false ∧
    mint baseState 2 5 (10 ^ 18) 901 = .error (.reserveStale 901 900) ∧
    mint baseState 2 5 (10 ^ 18) 100 =
      .error (.reserveInsufficient (10 ^ 18) 0) :=
  ⟨(no_attestation_blocks_mint baseState rfl rfl).1 100,
   (no_attestation_blocks_mint baseState rfl rfl).2.1,
   (no_attestation_blocks_mint baseState rfl rfl).2.2.1 2 5 (10 ^ 18) 100,
   ((no_attestation_blocks_mint baseState rfl rfl).2.2.2 2 5 (10 ^ 18) 901
     rfl rfl (by decide) (by decide) (by decide)).1 (by decide),
   ((no_attestation_blocks_mint baseState rfl rfl).2.2.2 2 5 (10 ^ 18) 100
     rfl rfl (by decide) (by decide) (by decide)).2 (by decide)⟩

/-- C3 counterexample: in the freshly initialized no-attestation state, a
mint attempted at `now = 100` (within the 900-second TTL measured from the
zero timestamp) does not fail with `ReserveStale` as claimed — it fails
with `ReserveInsufficient(1, 0)`, because `mint`'s inline age check has no
zero-timestamp guard. -/
theorem no_attestation_mint_not_stale :
    mint baseState 2 1 1 100 = .error (.reserveInsufficient 1 0) ∧
    (Except.error (VetraError.reserveInsufficient 1 0) :
      Except VetraError VetraState) ≠
      .error (.reserveStale 100 900) :=
  ⟨rfl, by simp⟩

/-- C4: with `ttlSeconds = 900` and an attestation observed at time `0`, a
mint at `now = 901` reverts with `ReserveStale(age := 901, maxAge := 900)`,
while a mint at `now = 900` passes the freshness check (its result is never
a `ReserveStale` error) — the window is boundary-inclusive; in general, for
`now` not earlier than the observation time, `isReserveFresh` holds iff an
attestation exists (`lastReserveTimestamp ≠ 0`) and
`now - lastReserveTimestamp ≤ reserveTTL`. -/
theorem freshness_boundary_inclusive :
    (∀ s sender toAddr amount,
       s.reserveTTL = 900 → s.lastReserveTimestamp = 0 →
       s.minters sender = true → s.paused = false → toAddr ≠ 0 → amount ≠ 0 →
       mint s sender toAddr amount 901 = .error (.reserveStale 901 900) ∧
       ∀ age maxAge,
         mint s sender toAddr amount 900 ≠ .error (.reserveStale age maxAge)) ∧
    (∀ s now, s.lastReserveTimestamp ≤ now →
       (isReserveFresh s now = .ok true ↔
        (s.lastReserveTimestamp ≠ 0 ∧
         now - s.lastReserveTimestamp ≤ s.reserveTTL))) := by
  constructor
  · intro s sender toAddr amount httl hts hminter hpaused hto hamt
    constructor
    · unfold mint
      rw [httl, hts, Nat.sub_zero,
          if_neg (by simp [hminter]), if_neg (by simp [hpaused]), if_neg hto,
          if_neg hamt, if_neg (Nat.not_lt_zero 901), if_pos (by decide)]
    · intro age maxAge
      unfold mint
      rw [httl, hts, Nat.sub_zero,
          if_neg (by simp [hminter]), if_neg (by simp [hpaused]), if_neg hto,
          if_neg hamt, if_neg (Nat.not_lt_zero 900),
          if_neg (by decide : ¬ (900 < 900))]
      split
      · simp
      split
      · simp
      split
      · simp
      split
      · simp
      split
      · simp
      · simp
  · intro s now hle
    unfold isReserveFresh
    by_cases hts : s.lastReserveTimestamp = 0
    · rw [if_pos hts]
      simp [hts]
    · rw [if_neg hts, if_neg (Nat.not_lt.mpr hle)]
      simp [hts]

/-- A state holding an attestation of `$100` observed at time `50`,
with TTL `900`. -/
def c4State : VetraState :=
  { baseState with
    lastReserveUsd := 100 * 10 ^ 8
    lastReserveTimestamp := 50
    lastReserveNonce := 1 }

/-- Witness for `freshness_boundary_inclusive`: the concrete `t = 0`
attestation scenario at `now = 901` and `now = 900`, and the freshness iff
evaluated on a live attestation. -/
theorem freshness_boundary_inclusive_witness :
    ((mint { baseState with lastReserveUsd := 100 * 10 ^ 8 } 2 5 (10 ^ 18)
        901 = .error (.reserveStale 901 900)) ∧
     mint { baseState with lastReserveUsd := 100 * 10 ^ 8 } 2 5 (10 ^ 18)
        900 ≠ .error (.reserveStale 0 0)) ∧
    (isReserveFresh c4State 500 = .ok true ↔
     (c4State.lastReserveTimestamp ≠ 0 ∧
      500 - c4State.lastReserveTimestamp ≤ c4State.reserveTTL)) :=
  ⟨⟨(freshness_boundary_inclusive.1
       { baseState with lastReserveUsd := 100 * 10 ^ 8 } 2 5 (10 ^ 18)
       rfl rfl rfl rfl (by decide) (by decide)).1,
    (freshness_boundary_inclusive.1
       { baseState with lastReserveUsd := 100 * 10 ^ 8 } 2 5 (10 ^ 18)
       rfl rfl rfl rfl (by decide) (by decide)).2 0 0⟩,
   freshness_boundary_inclusive.2 c4State 500 (by decide)⟩

/-- C5: atomicity on rejection — every reverting `mint`, `burnFrom`, or
`burn` call leaves the storage (total supply, attestation fields, TTL, and
policy state included) exactly as it was: the EVM rolls a reverted
transaction back, so the post-state of an error result is the pre-state. -/
theorem rejection_atomicity :
    ∀ s sender acct toAddr amount now e,
      (mint s sender toAddr amount now = .error e →
        runTx (mint s sender toAddr amount now) s = s ∧
        (runTx (mint s sender toAddr amount now) s).totalSupply =
          s.totalSupply ∧
        (runTx (mint s sender toAddr amount now) s).lastReserveUsd =
          s.lastReserveUsd ∧
        (runTx (mint s sender toAddr amount now) s).lastReserveTimestamp =
          s.lastReserveTimestamp ∧
        (runTx (mint s sender toAddr amount now) s).lastReserveNonce =
          s.lastReserveNonce ∧
        (runTx (mint s sender toAddr amount now) s).reserveTTL =
          s.reserveTTL ∧
        (runTx (mint s sender toAddr amount now) s).mintPerTxLimit =
          s.mintPerTxLimit ∧
        (runTx (mint s sender toAddr amount now) s).allowlistEnabled =
          s.allowlistEnabled ∧
        (runTx (mint s sender toAddr amount now) s).allowlist =
          s.allowlist) ∧
      (burnFrom s sender acct amount = .error e →
        runTx (burnFrom s sender acct amount) s = s) ∧
      (burn s sender amount = .error e →
        runTx (burn s sender amount) s = s) := by
  intro s sender acct toAddr amount now e
  refine ⟨fun h => ?_, fun h => ?_, fun h => ?_⟩
  · rw [h]
    exact ⟨rfl, rfl, rfl, rfl, rfl, rfl, rfl, rfl, rfl⟩
  · rw [h]
    rfl
  · rw [h]
    rfl

/-- Witness for `rejection_atomicity`: zero-amount `mint`, `burnFrom`, and
`burn` calls on the initial state are all rejected with `InvalidAmount` and
leave the state unchanged. -/
theorem rejection_atomicity_witness :
    runTx (mint baseState 2 5 0 100) baseState = baseState ∧
    runTx (burnFrom baseState 3 5 0) baseState = baseState ∧
    runTx (burn baseState 2 0) baseState = baseState :=
  ⟨((rejection_atomicity baseState 2 5 5 0 100 .invalidAmount).1 rfl).1,
   (rejection_atomicity baseState 3 5 5 0 100 .invalidAmount).2.1 rfl,
   (rejection_atomicity baseState 2 5 5 0 100 .invalidAmount).2.2 rfl⟩

/-- C6 (amended): `mint` evaluates its gates in the order — minter role,
pause (both as modifiers, before the body), recipient non-zero
(`InvalidAddress`), amount non-zero (`InvalidAmount`), reserve freshness,
then the business checks — returning the error of the first failing check.
Contrary to the claim, pause and recipient validation precede the amount
check: `amount = 0` against a paused system reports the pause error, and
`amount = 0` with a zero recipient reports `InvalidAddress`. -/
theorem mint_check_order :
    ∀ s sender toAddr amount now,
      (s.minters sender = false →
        mint s sender toAddr amount now =
          .error (.accessControlUnauthorized sender)) ∧
      (s.minters sender = true → s.paused = true →
        mint s sender toAddr amount now = .error .enforcedPause) ∧
      (s.minters sender = true → s.paused = false → toAddr = 0 →
        mint s sender toAddr amount now = .error .invalidAddress) ∧
      (s.minters sender = true → s.paused = false → toAddr ≠ 0 →
        amount = 0 →
        mint s sender toAddr amount now = .error .invalidAmount) ∧
      (s.minters sender = true → s.paused = false → toAddr ≠ 0 →
        amount ≠ 0 → s.lastReserveTimestamp ≤ now →
        s.reserveTTL < now - s.lastReserveTimestamp →
        mint s sender toAddr amount now =
          .error (.reserveStale (now - s.lastReserveTimestamp)
                    s.reserveTTL)) := by
  intro s sender toAddr amount now
  refine ⟨fun h1 => ?_, fun h1 h2 => ?_, fun h1 h2 h3 => ?_,
          fun h1 h2 h3 h4 => ?_, fun h1 h2 h3 h4 h5 h6 => ?_⟩
  · unfold mint
    rw [if_pos h1]
  · unfold mint
    rw [if_neg (by simp [h1]), if_pos h2]
  · unfold mint
    rw [if_neg (by simp [h1]), if_neg (by simp [h2]), if_pos h3]
  · unfold mint
    rw [if_neg (by simp [h1]), if_neg (by simp [h2]), if_neg h3, if_pos h4]
  · unfold mint
    rw [if_neg (by simp [h1]), if_neg (by simp [h2]), if_neg h3, if_neg h4,
        if_neg (Nat.not_lt.mpr h5), if_pos h6]

/-- The initial state with the pause flag raised. -/
def pausedState : VetraState :=
  { baseState with paused := true }

/-- Witness for `mint_check_order`: concrete first-failing-check results,
including a paused request reporting the pause error and a zero-recipient
zero-amount request reporting `InvalidAddress`. -/
theorem mint_check_order_witness :
    mint baseState 9 5 (10 ^ 18) 100 =
      .error (.accessControlUnauthorized 9) ∧
    mint pausedState 2 1 0 100 = .error .enforcedPause ∧
    mint baseState 2 0 0 100 = .error .invalidAddress ∧
    mint baseState 2 5 0 100 = .error .invalidAmount ∧
    mint baseState 2 5 (10 ^ 18) 901 = .error (.reserveStale 901 900) :=
  ⟨(mint_check_order baseState 9 5 (10 ^ 18) 100).1 rfl,
   (mint_check_order pausedState 2 1 0 100).2.1 rfl rfl,
   (mint_check_order baseState 2 0 0 100).2.2.1 rfl rfl rfl,
   (mint_check_order baseState 2 5 0 100).2.2.2.1 rfl rfl (by decide) rfl,
   (mint_check_order baseState 2 5 (10 ^ 18) 901).2.2.2.2 rfl rfl
     (by decide) (by decide) (by decide) (by decide)⟩

/-- C6 counterexample: the claim predicts `InvalidAmount` for a zero-amount
request with a zero recipient, and for a zero-amount request on a paused
system; the code reports `InvalidAddress` and the pause error instead,
because the recipient and pause checks run before the amount check. -/
theorem mint_check_order_counterexample :
    mint baseState 2 0 0 100 = .error .invalidAddress ∧
    (Except.error VetraError.invalidAddress :
      Except VetraError VetraState) ≠ .error .invalidAmount ∧
    mint pausedState 2 1 0 100 = .error .enforcedPause ∧
    (Except.error VetraError.enforcedPause :
      Except VetraError VetraState) ≠ .error .invalidAmount :=
  ⟨rfl, by simp, rfl, by simp⟩

/-- C7 (amended): in `handleOracleFulfillment`, a response carrying a
non-empty transport error payload is NOT rejected with an error kind — the
handler marks the request fulfilled and returns successfully, leaving the
reserve fields untouched; a response with an empty error payload that does
not decode into two `uint256` words reverts with the ABI-decode error (the
spec's `MalformedResponse`), leaving all storage — the fulfilled flag
included — unchanged. -/
theorem oracle_ingest_behavior :
    ∀ s sender requestId response errPayload now,
      sender = s.functionsRouter →
      ((errPayload ≠ [] →
        handleOracleFulfillment s sender requestId response errPayload now =
          .ok (markFulfilled s requestId) ∧
        (markFulfilled s requestId).lastReserveUsd = s.lastReserveUsd ∧
        (markFulfilled s requestId).lastReserveTimestamp =
          s.lastReserveTimestamp ∧
        (markFulfilled s requestId).lastReserveNonce = s.lastReserveNonce ∧
        ((markFulfilled s requestId).requests requestId).fulfilled = true) ∧
       (errPayload = [] → decodeUint256Pair response = none →
        handleOracleFulfillment s sender requestId response errPayload now =
          .error .abiDecodeError ∧
        runTx (handleOracleFulfillment s sender requestId response errPayload
          now) s = s)) := by
  intro s sender requestId response errPayload now hsender
  subst hsender
  constructor
  · intro hne
    unfold handleOracleFulfillment
    rw [if_neg (by simp), if_pos (by simpa using List.length_pos.mpr hne)]
    refine ⟨rfl, rfl, rfl, rfl, ?_⟩
    simp [markFulfilled]
  · intro herr hdec
    subst herr
    unfold handleOracleFulfillment
    rw [if_neg (by simp), if_neg (by simp)]
    simp only [hdec]
    exact ⟨trivial, rfl⟩

/-- Witness for `oracle_ingest_behavior`: a transport-error delivery
(`err = [1]`) succeeds silently with the reserve untouched and the request
marked fulfilled; an empty (undecodable) response with no transport error
reverts with the decode error and changes nothing. -/
theorem oracle_ingest_behavior_witness :
    (handleOracleFulfillment baseState 7 1 [] [1] 50 =
       .ok (markFulfilled baseState 1) ∧
     (markFulfilled baseState 1).lastReserveUsd = baseState.lastReserveUsd ∧
     (markFulfilled baseState 1).lastReserveTimestamp =
       baseState.lastReserveTimestamp ∧
     (markFulfilled baseState 1).lastReserveNonce =
       baseState.lastReserveNonce ∧
     ((markFulfilled baseState 1).requests 1).fulfilled = true) ∧
    (handleOracleFulfillment baseState 7 1 [] [] 50 =
       .error .abiDecodeError ∧
     runTx (handleOracleFulfillment baseState 7 1 [] [] 50) baseState =
       baseState) :=
  ⟨(oracle_ingest_behavior baseState 7 1 [] [1] 50 rfl).1 (by decide),
   (oracle_ingest_behavior baseState 7 1 [] [] 50 rfl).2 rfl rfl⟩

/-- C7 counterexample: a delivery whose transport error payload is
non-empty is accepted (`isOk = true`) rather than rejected with its own
error kind; it leaves the reserve untouched but does mutate storage —
the request is marked fulfilled. -/
theorem transport_error_not_rejected :
    (handleOracleFulfillment baseState 7 1 [] [1] 50).isOk = true ∧
    (runTx (handleOracleFulfillment baseState 7 1 [] [1] 50)
       baseState).lastReserveUsd = baseState.lastReserveUsd ∧
    (runTx (handleOracleFulfillment baseState 7 1 [] [1] 50)
       baseState).lastReserveTimestamp = baseState.lastReserveTimestamp ∧
    (runTx (handleOracleFulfillment baseState 7 1 [] [1] 50)
       baseState).lastReserveNonce = baseState.lastReserveNonce ∧
    ((runTx (handleOracleFulfillment baseState 7 1 [] [1] 50)
       baseState).requests 1).fulfilled = true :=
  ⟨rfl, rfl, rfl, rfl, rfl⟩

/-- C8: the per-operation limit check passes for every amount when the
limit is `0` and otherwise fails with the limit error exactly when
`amount > limit`; the allowlist check passes for every recipient when
disabled and otherwise fails exactly for recipients not on the list; and
inside `mint` the limit check runs before the allowlist check — when both
would fail, the reported error is `MintLimitExceeded`. -/
theorem policy_checks :
    (∀ amount, checkOperationLimit 0 amount = .ok ()) ∧
    (∀ limit amount, 0 < limit → amount ≤ limit →
       checkOperationLimit limit amount = .ok ()) ∧
    (∀ limit amount, 0 < limit → limit < amount →
       checkOperationLimit limit amount =
         .error (.mintLimitExceeded amount limit)) ∧
    (∀ allowed toAddr, checkAllowlist false allowed toAddr = .ok ()) ∧
    (∀ allowed toAddr, allowed toAddr = false →
       checkAllowlist true allowed toAddr =
         .error (.recipientNotAllowed toAddr)) ∧
    (∀ allowed toAddr, allowed toAddr = true →
       checkAllowlist true allowed toAddr = .ok ()) ∧
    (∀ s sender toAddr amount now,
       s.minters sender = true → s.paused = false → toAddr ≠ 0 →
       amount ≠ 0 → s.lastReserveTimestamp ≤ now →
       now - s.lastReserveTimestamp ≤ s.reserveTTL →
       scaledCapacity s < U256 → s.totalSupply + amount < U256 →
       s.totalSupply + amount ≤ scaledCapacity s →
       0 < s.mintPerTxLimit → s.mintPerTxLimit < amount →
       s.allowlistEnabled = true → s.allowlist toAddr = false →
       mint s sender toAddr amount now =
         .error (.mintLimitExceeded amount s.mintPerTxLimit)) := by
  refine ⟨?_, ?_, ?_, ?_, ?_, ?_, ?_⟩
  · intro amount
    unfold checkOperationLimit
    rw [if_neg (by omega)]
  · intro limit amount hpos hle
    unfold checkOperationLimit
    rw [if_neg (by omega)]
  · intro limit amount hpos hlt
    unfold checkOperationLimit
    rw [if_pos ⟨hpos, hlt⟩]
  · intro allowed toAddr
    unfold checkAllowlist
    rw [if_neg (by simp)]
  · intro allowed toAddr hna
    unfold checkAllowlist
    rw [if_pos ⟨rfl, hna⟩]
  · intro allowed toAddr ha
    unfold checkAllowlist
    rw [if_neg (by simp [ha])]
  · intro s sender toAddr amount now hminter hpaused hto hamt hnow hfresh
      hmul hadd hcap hlpos hlt henabled hna
    simp only [scaledCapacity] at hmul hcap
    unfold mint
    rw [if_neg (by simp [hminter]), if_neg (by simp [hpaused]), if_neg hto,
        if_neg hamt, if_neg (Nat.not_lt.mpr hnow),
        if_neg (Nat.not_lt.mpr hfresh), if_neg (Nat.not_le.mpr hmul),
        if_neg (Nat.not_le.mpr hadd), if_neg (Nat.not_lt.mpr hcap),
        if_pos ⟨hlpos, hlt⟩]

/-- The spec's policy-composition scenario: fresh `$100` reserve, per-tx
limit `50e18`, allowlist enabled containing only address `1`. -/
def c8State : VetraState :=
  { baseState with
    lastReserveUsd := 100 * 10 ^ 8
    lastReserveTimestamp := 100
    lastReserveNonce := 1
    mintPerTxLimit := 50 * 10 ^ 18
    allowlistEnabled := true
    allowlist := fun a => a == 1 }

/-- Witness for `policy_checks`: all six policy-check branches at concrete
inputs, plus a `mint` violating both the limit and the allowlist that
reports the limit error (limit checked first). -/
theorem policy_checks_witness :
    checkOperationLimit 0 (7 * 10 ^ 18) = .ok () ∧
    checkOperationLimit (50 * 10 ^ 18) (40 * 10 ^ 18) = .ok () ∧
    checkOperationLimit (50 * 10 ^ 18) (60 * 10 ^ 18) =
      .error (.mintLimitExceeded (60 * 10 ^ 18) (50 * 10 ^ 18)) ∧
    checkAllowlist false (fun a => a == 1) 2 = .ok () ∧
    checkAllowlist true (fun a => a == 1) 2 =
      .error (.recipientNotAllowed 2) ∧
    checkAllowlist true (fun a => a == 1) 1 = .ok () ∧
    mint c8State 2 2 (60 * 10 ^ 18) 200 =
      .error (.mintLimitExceeded (60 * 10 ^ 18) (50 * 10 ^ 18)) :=
  ⟨policy_checks.1 (7 * 10 ^ 18),
   policy_checks.2.1 (50 * 10 ^ 18) (40 * 10 ^ 18) (by decide) (by decide),
   policy_checks.2.2.1 (50 * 10 ^ 18) (60 * 10 ^ 18) (by decide) (by decide),
   policy_checks.2.2.2.1 (fun a => a == 1) 2,
   policy_checks.2.2.2.2.1 (fun a => a == 1) 2 rfl,
   policy_checks.2.2.2.2.2.1 (fun a => a == 1) 1 rfl,
   policy_checks.2.2.2.2.2.2 c8State 2 2 (60 * 10 ^ 18) 200 rfl rfl
     (by decide) (by decide) (by decide) (by decide) (by decide) (by decide)
     (by decide) (by decide) (by decide) rfl rfl⟩

/-- C9 (amended): `reserveAge` returns the sentinel `2^256 - 1`
(`type(uint256).max`) when no attestation has ever been recorded, and
otherwise the checked subtraction `now - lastReserveTimestamp`: a
non-negative value when `now ≥ lastReserveTimestamp`, and an arithmetic
panic — NOT a clamp to zero — when `now` is earlier than the stored
timestamp. -/
theorem reserve_age_no_clamp :
    ∀ s now,
      (s.lastReserveTimestamp = 0 → reserveAge s now = .ok (U256 - 1)) ∧
      (s.lastReserveTimestamp ≠ 0 → s.lastReserveTimestamp ≤ now →
        reserveAge s now = .ok (now - s.lastReserveTimestamp)) ∧
      (s.lastReserveTimestamp ≠ 0 → now < s.lastReserveTimestamp →
        reserveAge s now = .error .panicArithmetic) := by
  intro s now
  refine ⟨fun h0 => ?_, fun hne hle => ?_, fun hne hlt => ?_⟩
  · unfold reserveAge
    rw [if_pos h0]
  · unfold reserveAge
    rw [if_neg hne, if_neg (Nat.not_lt.mpr hle)]
  · unfold reserveAge
    rw [if_neg hne, if_pos hlt]

/-- A state holding an attestation observed at time `10`. -/
def c9State : VetraState :=
  { baseState with
    lastReserveUsd := 5 * 10 ^ 8
    lastReserveTimestamp := 10
    lastReserveNonce := 1 }

/-- Witness for `reserve_age_no_clamp`: sentinel on the initial state, age
`5` at `now = 15`, and the panic at `now = 5` against timestamp `10`. -/
theorem reserve_age_no_clamp_witness :
    reserveAge baseState 123 = .ok (U256 - 1) ∧
    reserveAge c9State 15 = .ok 5 ∧
    reserveAge c9State 5 = .error .panicArithmetic :=
  ⟨(reserve_age_no_clamp baseState 123).1 rfl,
   (reserve_age_no_clamp c9State 15).2.1 (by decide) (by decide),
   (reserve_age_no_clamp c9State 5).2.2 (by decide) (by decide)⟩

/-- C9 counterexample: with an attestation stored at time `10`, calling
`reserveAge` at `now = 5` reverts with an arithmetic panic — it is not
clamped to zero as the claim states. -/
theorem reserve_age_underflow_panic :
    reserveAge c9State 5 = .error .panicArithmetic ∧
    (Except.error VetraError.panicArithmetic : Except VetraError Nat) ≠
      .ok 0 :=
  ⟨rfl, by simp⟩

/-- C10 (amended): whenever the scaled reserve
`lastReserveUsd * RESERVE_TO_TOKEN_SCALE` fits in `uint256`,
`availableMintCapacity` returns `0` when the supply already meets or
exceeds it and the exact difference otherwise — it never underflows, in
particular when the reserve has dropped below the issued supply or no
attestation exists; but when the scaled product overflows `uint256` the
view reverts with an arithmetic panic instead of returning a value. -/
theorem available_capacity_no_underflow :
    ∀ s,
      (scaledCapacity s < U256 →
        ((scaledCapacity s ≤ s.totalSupply →
            availableMintCapacity s = .ok 0) ∧
         (s.totalSupply < scaledCapacity s →
            availableMintCapacity s =
              .ok (scaledCapacity s - s.totalSupply)))) ∧
      (U256 ≤ scaledCapacity s →
        availableMintCapacity s = .error .panicArithmetic) := by
  intro s
  constructor
  · intro hfit
    simp only [scaledCapacity] at hfit ⊢
    constructor
    · intro hle
      unfold availableMintCapacity
      rw [if_neg (Nat.not_le.mpr hfit), if_pos hle]
    · intro hlt
      unfold availableMintCapacity
      rw [if_neg (Nat.not_le.mpr hfit), if_neg (Nat.not_le.mpr hlt)]
  · intro hover
    simp only [scaledCapacity] at hover
    unfold availableMintCapacity
    rw [if_pos hover]

/-- A state whose reserve is so large that scaling it to token precision
overflows `uint256`. -/
def c10State : VetraState :=
  { baseState with lastReserveUsd := 2 ^ 250 }

/-- A state where an accepted attestation has dropped the reserve (`$1`)
below the already-issued supply (`2e18`). -/
def c10LowState : VetraState :=
  { baseState with
    lastReserveUsd := 10 ^ 8
    lastReserveTimestamp := 100
    lastReserveNonce := 2
    totalSupply := 2 * 10 ^ 18 }

/-- Witness for `available_capacity_no_underflow`: capacity floors at `0`
when the reserve is below the supply, returns the exact difference
otherwise, and panics on an overflowing reserve. -/
theorem available_capacity_no_underflow_witness :
    availableMintCapacity c10LowState = .ok 0 ∧
    availableMintCapacity c9State = .ok (5 * 10 ^ 18) ∧
    availableMintCapacity c10State = .error .panicArithmetic :=
  ⟨((available_capacity_no_underflow c10LowState).1 (by decide)).1
     (by decide),
   ((available_capacity_no_underflow c9State).1 (by decide)).2 (by decide),
   (available_capacity_no_underflow c10State).2 (by decide)⟩

/-- C10 counterexample: at `lastReserveUsd = 2^250` the scaled product
`2^250 * 10^10` exceeds `2^256`, so `availableMintCapacity` reverts with
an arithmetic panic instead of returning
`lastReserveUsd * 10^10 - totalSupply` as the claim asserts for every
state. -/
theorem available_capacity_overflow :
    availableMintCapacity c10State = .error .panicArithmetic ∧
    (Except.error VetraError.panicArithmetic : Except VetraError Nat) ≠
      .ok (scaledCapacity c10State - c10State.totalSupply) :=
  ⟨rfl, by simp⟩
